import Mathlib

/-!
Shallow embedding of `src/static/script.js` of the net-scan1 repository.

The script registers a single `DOMContentLoaded` listener which
(1) schedules a one-shot `setTimeout(() => window.location.reload(), 30000)`
    when `window.location.pathname === '/'`, and
(2) constructs `new bootstrap.Tooltip(el)` for every element returned by
    `document.querySelectorAll('[data-bs-toggle="tooltip"]')`, in order, via
    `[].slice.call(...).map(...)`.

The embedding records the handler's execution as a trace of events in the
order the single-threaded event-loop callback performs them.  Timers carry
their kind (`setTimeout` is a one-shot `timeout`; `setInterval` would be
`interval`) so that browser firing semantics can be stated.  A DOM-write
event (`setAttr`) exists in the event vocabulary so that the frame condition
"the handler writes no attribute" is a statement about the trace rather than
a tautology.
-/

namespace NetScan

/-- A DOM element: a tag name and its attribute list (name, value pairs). -/
structure Element where
  tag : String
  attrs : List (String × String)
deriving DecidableEq

/-- Read attribute `name` of an element, as `el.getAttribute(name)` does:
the value of the first binding of that name, or `none` when absent. -/
def Element.getAttr (e : Element) (name : String) : Option String :=
  (e.attrs.find? (fun p => p.1 = name)).map Prod.snd

/-- A document is its elements in document order. -/
structure Document where
  elements : List Element
deriving DecidableEq

/-- The CSS selector fragment used by the script: `[name="value"]`,
an exact, case-sensitive attribute-value match. -/
inductive Selector where
  | attrEq (name value : String)
deriving DecidableEq

/-- CSS matching of the attribute-equality selector against one element. -/
def Element.matchesSel (e : Element) : Selector → Bool
  | .attrEq n v => e.getAttr n = some v

/-- `document.querySelectorAll(s)`: the matched elements in document order. -/
def Document.querySelectorAll (d : Document) (s : Selector) : List Element :=
  d.elements.filter (fun e => e.matchesSel s)

/-- The selector on line 11: `[data-bs-toggle="tooltip"]`. -/
def tooltipSelector : Selector := Selector.attrEq "data-bs-toggle" "tooltip"

/-- Browser timer kinds: `setTimeout` arms a one-shot timer, `setInterval`
a recurring one. The script only ever uses `setTimeout`. -/
inductive TimerKind where
  | timeout
  | interval
deriving DecidableEq

/-- The action a timer runs when it fires; the script's only timer callback
is `window.location.reload()`. -/
inductive TimerTask where
  | reload
deriving DecidableEq

/-- Number of times a timer armed at instant 0 with delay `delayMs` has
fired once `elapsed` milliseconds have passed: a one-shot timer fires
exactly once, when its delay has elapsed; a recurring timer fires at every
multiple of its (clamped, positive) delay. -/
def TimerKind.fireCount : TimerKind → (delayMs elapsed : Nat) → Nat
  | .timeout, d, t => if d ≤ t then 1 else 0
  | .interval, d, t => t / max d 1

/-- One step of the handler, in execution order. -/
inductive Event where
  | readPath (path : String)
  | schedule (kind : TimerKind) (delayMs : Nat) (task : TimerTask)
  | querySelect (sel : Selector)
  | newTooltip (el : Element)
  | setAttr (index : Nat) (name value : String)
  | throwRefErr (globalName : String)
deriving DecidableEq

/-- The browser state the handler can observe: the navigation path, the
document, and whether the global `bootstrap` object is defined. -/
structure Env where
  pathname : String
  doc : Document
  bootstrapDefined : Bool
deriving DecidableEq

/-- Trace of `tooltipTriggerList.map(function (el) { return new
bootstrap.Tooltip(el); })` over the matched elements, left to right.  When
the global `bootstrap` is undefined, the first callback invocation throws a
`ReferenceError` before constructing anything, and the exception aborts the
map; with an empty list the callback never runs and nothing is thrown. -/
def tooltipMapTrace (bootstrapDefined : Bool) : List Element → List Event
  | [] => []
  | e :: rest =>
    if bootstrapDefined then
      Event.newTooltip e :: tooltipMapTrace bootstrapDefined rest
    else
      [Event.throwRefErr "bootstrap"]

/-- Execution trace of the `DOMContentLoaded` listener (lines 2-15): read
the path, schedule the 30000 ms one-shot reload when the path is `"/"`,
query for the tooltip-marked elements, then run the construction map. -/
def handlerTrace (env : Env) : List Event :=
  (Event.readPath env.pathname ::
      (if env.pathname = "/" then
        [Event.schedule TimerKind.timeout 30000 TimerTask.reload]
      else []))
    ++ Event.querySelect tooltipSelector ::
        tooltipMapTrace env.bootstrapDefined (env.doc.querySelectorAll tooltipSelector)

/-- Project a trace event to a scheduled reload timer (kind, delay). -/
def schedOf : Event → Option (TimerKind × Nat)
  | .schedule k d .reload => some (k, d)
  | _ => none

/-- Project a trace event to a tooltip construction's argument. -/
def ctorOf : Event → Option Element
  | .newTooltip e => some e
  | _ => none

/-- Project a trace event to an uncaught fault (the undefined global). -/
def faultOf : Event → Option String
  | .throwRefErr n => some n
  | _ => none

/-- The reload timers a page load schedules, in order. -/
def scheduledReloads (env : Env) : List (TimerKind × Nat) :=
  (handlerTrace env).filterMap schedOf

/-- The arguments of the tooltip-controller construction calls, in call
order (each call receives exactly this element as its sole argument). -/
def constructions (env : Env) : List Element :=
  (handlerTrace env).filterMap ctorOf

/-- The first uncaught fault the handler raises, if any. -/
def uncaughtFault (env : Env) : Option String :=
  ((handlerTrace env).filterMap faultOf).head?

/-- Total number of reload firings within `elapsed` ms of the page load,
summed over the timers the handler scheduled. -/
def reloadFireCount (env : Env) (elapsed : Nat) : Nat :=
  ((scheduledReloads env).map (fun kd => kd.1.fireCount kd.2 elapsed)).sum

/-- Replace the element at position `i`, leaving the rest unchanged. -/
def updateAt : List Element → Nat → (Element → Element) → List Element
  | [], _, _ => []
  | e :: rest, 0, f => f e :: rest
  | e :: rest, Nat.succ i, f => e :: updateAt rest i f

/-- `el.setAttribute(n, v)`: overwrite the binding of `n`, or append it. -/
def Element.withAttr (e : Element) (n v : String) : Element :=
  if e.attrs.any (fun p => p.1 = n) then
    ⟨e.tag, e.attrs.map (fun p => if p.1 = n then (n, v) else p)⟩
  else
    ⟨e.tag, e.attrs ++ [(n, v)]⟩

/-- Effect of one trace event on the document: only `setAttr` mutates it. -/
def Event.applyToDoc : Event → Document → Document
  | .setAttr i n v, d => ⟨updateAt d.elements i (fun e => e.withAttr n v)⟩
  | _, d => d

/-- Document state after running a trace. -/
def applyTrace (l : List Event) (d : Document) : Document :=
  l.foldl (fun d ev => ev.applyToDoc d) d

/-- The document as the handler leaves it. -/
def docAfter (env : Env) : Document :=
  applyTrace (handlerTrace env) env.doc

/- Concrete data used by the witnesses. -/

/-- A button marked for tooltips. -/
def elTip1 : Element := ⟨"button", [("data-bs-toggle", "tooltip"), ("title", "first")]⟩

/-- A span marked for tooltips. -/
def elTip2 : Element := ⟨"span", [("data-bs-toggle", "tooltip")]⟩

/-- An anchor whose `data-bs-toggle` is present but equals `"modal"`. -/
def elModal : Element := ⟨"a", [("data-bs-toggle", "modal")]⟩

/-- An unmarked div. -/
def elPlain : Element := ⟨"div", []⟩

/-- A document with two marked and two unmarked elements. -/
def docMix : Document := ⟨[elTip1, elModal, elTip2, elPlain]⟩

/-- A document with no marked element. -/
def docNoMarks : Document := ⟨[elModal, elPlain]⟩

/-- Root path, mixed document, bootstrap loaded. -/
def envRoot : Env := ⟨"/", docMix, true⟩

/-- Non-root path, same document, bootstrap loaded. -/
def envScan : Env := ⟨"/scan", docMix, true⟩

/-- Root path, no marked elements, bootstrap absent. -/
def envBare : Env := ⟨"/", docNoMarks, false⟩

/-- Non-root path, marked elements present, bootstrap absent. -/
def envNoBoot : Env := ⟨"/scan", docMix, false⟩

/- Normalization lemmas: closed forms of the handler's observations. -/

lemma tooltipMapTrace_true (l : List Element) :
    tooltipMapTrace true l = l.map Event.newTooltip := by
  induction l with
  | nil => rfl
  | cons e rest ih => simp [tooltipMapTrace, ih]

lemma tooltipMapTrace_false (l : List Element) :
    tooltipMapTrace false l =
      if l = [] then [] else [Event.throwRefErr "bootstrap"] := by
  cases l <;> simp [tooltipMapTrace]

lemma mem_tooltipMapTrace {b : Bool} {l : List Element} {ev : Event}
    (h : ev ∈ tooltipMapTrace b l) :
    (∃ e, ev = Event.newTooltip e) ∨ ev = Event.throwRefErr "bootstrap" := by
  cases b
  · rw [tooltipMapTrace_false] at h
    split at h
    · simp at h
    · right
      simpa using h
  · rw [tooltipMapTrace_true] at h
    rcases List.mem_map.mp h with ⟨e, _, rfl⟩
    exact Or.inl ⟨e, rfl⟩

lemma scheduledReloads_eq (env : Env) :
    scheduledReloads env =
      if env.pathname = "/" then [(TimerKind.timeout, 30000)] else [] := by
  unfold scheduledReloads handlerTrace
  rw [List.filterMap_append]
  have hmap : (tooltipMapTrace env.bootstrapDefined
      (env.doc.querySelectorAll tooltipSelector)).filterMap schedOf = [] := by
    rw [List.filterMap_eq_nil_iff]
    intro ev hev
    rcases mem_tooltipMapTrace hev with ⟨e, rfl⟩ | rfl <;> rfl
  by_cases hp : env.pathname = "/" <;>
    simp [hp, List.filterMap_cons, schedOf, hmap]

lemma constructions_eq (env : Env) :
    constructions env =
      if env.bootstrapDefined then env.doc.querySelectorAll tooltipSelector
      else [] := by
  unfold constructions handlerTrace
  rw [List.filterMap_append]
  have hpre : (Event.readPath env.pathname ::
      (if env.pathname = "/" then
        [Event.schedule TimerKind.timeout 30000 TimerTask.reload]
      else [])).filterMap ctorOf = [] := by
    by_cases hp : env.pathname = "/" <;> simp [hp, List.filterMap_cons, ctorOf]
  rw [hpre]
  cases hb : env.bootstrapDefined
  · rw [tooltipMapTrace_false]
    split <;> simp [List.filterMap_cons, ctorOf]
  · rw [tooltipMapTrace_true]
    simp only [List.filterMap_cons, ctorOf, List.filterMap_map, List.nil_append,
      if_true]
    have hco : ctorOf ∘ Event.newTooltip = some := funext fun e => rfl
    rw [hco, List.filterMap_some]

lemma uncaughtFault_eq (env : Env) :
    uncaughtFault env =
      if env.bootstrapDefined = false ∧ env.doc.querySelectorAll tooltipSelector ≠ []
      then some "bootstrap" else none := by
  unfold uncaughtFault handlerTrace
  rw [List.filterMap_append]
  have hpre : (Event.readPath env.pathname ::
      (if env.pathname = "/" then
        [Event.schedule TimerKind.timeout 30000 TimerTask.reload]
      else [])).filterMap faultOf = [] := by
    by_cases hp : env.pathname = "/" <;> simp [hp, List.filterMap_cons, faultOf]
  rw [hpre]
  cases hb : env.bootstrapDefined
  · rw [tooltipMapTrace_false]
    split <;> simp_all [List.filterMap_cons, faultOf]
  · rw [tooltipMapTrace_true]
    have : (List.map Event.newTooltip
        (env.doc.querySelectorAll tooltipSelector)).filterMap faultOf = [] := by
      rw [List.filterMap_eq_nil_iff]
      intro ev hev
      rcases List.mem_map.mp hev with ⟨e, _, rfl⟩
      rfl
    simp [this]
    exact ⟨rfl, fun a _ => rfl⟩

lemma handlerTrace_no_setAttr (env : Env) :
    ∀ ev ∈ handlerTrace env, ∀ i n v, ev ≠ Event.setAttr i n v := by
  intro ev hev i n v
  unfold handlerTrace at hev
  rw [List.mem_append] at hev
  rcases hev with hev | hev
  · rcases List.mem_cons.mp hev with rfl | hev
    · simp
    · by_cases hp : env.pathname = "/" <;> simp [hp] at hev
      subst hev; simp
  · rcases List.mem_cons.mp hev with rfl | hev
    · simp
    · rcases mem_tooltipMapTrace hev with ⟨e, rfl⟩ | rfl <;> simp

lemma applyTrace_eq_self (l : List Event) (d : Document)
    (h : ∀ ev ∈ l, ∀ i n v, ev ≠ Event.setAttr i n v) :
    applyTrace l d = d := by
  induction l generalizing d with
  | nil => rfl
  | cons ev rest ih =>
    have hev : ev.applyToDoc d = d := by
      cases ev with
      | setAttr a b c => exact absurd rfl (h _ (List.mem_cons_self _ _) a b c)
      | _ => rfl
    rw [applyTrace, List.foldl_cons, hev]
    exact ih d (fun e he => h e (List.mem_cons_of_mem _ he))

/- Claim theorems. -/

/-- C1: a reload action is scheduled if and only if the navigation path
equals `"/"` exactly, and then it is a single one-shot timer with a delay of
exactly 30000 milliseconds; for any other path nothing is scheduled. -/
theorem reload_scheduled_iff_root (env : Env) :
    (env.pathname = "/" → scheduledReloads env = [(TimerKind.timeout, 30000)])
    ∧ (env.pathname ≠ "/" → scheduledReloads env = []) := by
  rw [scheduledReloads_eq]
  constructor
  · intro h; rw [if_pos h]
  · intro h; rw [if_neg h]

/-- Witness for C1 at the root path and at a non-root path. -/
theorem reload_scheduled_iff_root_witness :
    scheduledReloads envRoot = [(TimerKind.timeout, 30000)]
    ∧ scheduledReloads envScan = [] :=
  ⟨(reload_scheduled_iff_root envRoot).1 rfl,
   (reload_scheduled_iff_root envScan).2 (by decide)⟩

/-- C2: every timer the handler schedules is a one-shot `setTimeout`, never
a recurring interval, and however much time elapses after one page load the
reload fires at most once. -/
theorem reload_fires_at_most_once (env : Env) (elapsed : Nat) :
    reloadFireCount env elapsed ≤ 1
    ∧ ∀ kd ∈ scheduledReloads env, kd.1 = TimerKind.timeout := by
  rw [reloadFireCount, scheduledReloads_eq]
  by_cases hp : env.pathname = "/"
  · rw [if_pos hp]
    refine ⟨?_, ?_⟩
    · simp only [List.map_cons, List.map_nil, List.sum_cons, List.sum_nil,
        Nat.add_zero]
      show (if 30000 ≤ elapsed then 1 else 0) ≤ 1
      split <;> omega
    · intro kd hkd
      rw [List.mem_singleton.mp hkd]
  · rw [if_neg hp]
    exact ⟨by simp, fun kd hkd => absurd hkd (List.not_mem_nil kd)⟩

/-- Witness for C2: a huge elapsed time still yields at most one firing, and
the concrete scheduled timer is a one-shot. -/
theorem reload_fires_at_most_once_witness :
    reloadFireCount envRoot 1000000 ≤ 1
    ∧ (TimerKind.timeout, 30000).1 = TimerKind.timeout :=
  ⟨(reload_fires_at_most_once envRoot 1000000).1,
   (reload_fires_at_most_once envRoot 0).2 (TimerKind.timeout, 30000) (by decide)⟩

/-- C3: with the widget library present, the handler performs exactly N
construction calls when N elements match the tooltip marker: its call-count
for each marked element equals that element's multiplicity in the document
and is zero for every unmarked element. -/
theorem tooltip_construction_count (env : Env)
    (h : env.bootstrapDefined = true) :
    (constructions env).length
      = env.doc.elements.countP (fun e => e.matchesSel tooltipSelector)
    ∧ ∀ e : Element, (constructions env).count e =
        if e.matchesSel tooltipSelector then env.doc.elements.count e else 0 := by
  rw [constructions_eq, if_pos h]
  constructor
  · rw [Document.querySelectorAll, List.countP_eq_length_filter]
  · intro e
    rw [Document.querySelectorAll]
    by_cases he : e.matchesSel tooltipSelector
    · rw [if_pos he, List.count_filter]
      simpa using he
    · rw [if_neg he, List.count_eq_zero]
      intro hmem
      exact he (List.mem_filter.mp hmem).2

/-- Witness for C3: the mixed document has exactly two marked elements, two
construction calls, one call for a marked element, none for an unmarked. -/
theorem tooltip_construction_count_witness :
    (constructions envRoot).length
        = docMix.elements.countP (fun e => e.matchesSel tooltipSelector)
    ∧ (constructions envRoot).count elTip1 = docMix.elements.count elTip1
    ∧ (constructions envRoot).count elPlain = 0 := by
  refine ⟨(tooltip_construction_count envRoot rfl).1, ?_, ?_⟩
  · have h := (tooltip_construction_count envRoot rfl).2 elTip1
    rwa [if_pos (by decide)] at h
  · have h := (tooltip_construction_count envRoot rfl).2 elPlain
    rwa [if_neg (by decide)] at h

/-- C4: with the widget library present, the construction calls happen in
document order of the marked elements: the call sequence is exactly the
`querySelectorAll` result, so the i-th call receives the i-th matched
element. -/
theorem tooltip_construction_order (env : Env)
    (h : env.bootstrapDefined = true) :
    constructions env = env.doc.querySelectorAll tooltipSelector
    ∧ ∀ i : Nat, (constructions env).get? i
        = (env.doc.querySelectorAll tooltipSelector).get? i := by
  rw [constructions_eq, if_pos h]
  exact ⟨rfl, fun i => rfl⟩

/-- Witness for C4 on the mixed document: calls are `elTip1` then `elTip2`,
skipping the unmarked elements between them. -/
theorem tooltip_construction_order_witness :
    constructions envRoot = docMix.querySelectorAll tooltipSelector
    ∧ (constructions envRoot).get? 1 = some elTip2 := by
  refine ⟨(tooltip_construction_order envRoot rfl).1, ?_⟩
  rw [(tooltip_construction_order envRoot rfl).2 1]
  decide

/-- C5: when no element carries the tooltip marker there are zero
construction calls and no fault is raised, whether or not the widget
library is present. -/
theorem no_marked_elements_no_fault (env : Env)
    (h : env.doc.elements.countP (fun e => e.matchesSel tooltipSelector) = 0) :
    constructions env = [] ∧ uncaughtFault env = none := by
  have hq : env.doc.querySelectorAll tooltipSelector = [] := by
    rw [Document.querySelectorAll, ← List.length_eq_zero,
      ← List.countP_eq_length_filter]
    exact h
  constructor
  · rw [constructions_eq, hq]
    split <;> rfl
  · rw [uncaughtFault_eq, if_neg]
    intro hc
    exact hc.2 hq

/-- Witness for C5: a document with only unmarked elements, with the widget
library absent, yields no construction and no fault. -/
theorem no_marked_elements_no_fault_witness :
    constructions envBare = [] ∧ uncaughtFault envBare = none :=
  no_marked_elements_no_fault envBare (by decide)

/-- C6: when the global `bootstrap` is undefined and at least one marked
element exists, the handler raises an uncaught `ReferenceError` for that
global: nothing in the handler catches it, so it is the handler's
outcome and propagates to the hosting environment. -/
theorem missing_library_uncaught_fault (env : Env)
    (hb : env.bootstrapDefined = false)
    (hn : env.doc.querySelectorAll tooltipSelector ≠ []) :
    uncaughtFault env = some "bootstrap" := by
  rw [uncaughtFault_eq, if_pos ⟨hb, hn⟩]

/-- Witness for C6: marked elements present and no `bootstrap` global. -/
theorem missing_library_uncaught_fault_witness :
    uncaughtFault envNoBoot = some "bootstrap" :=
  missing_library_uncaught_fault envNoBoot rfl (by decide)

/-- C7: the handler leaves the document unchanged — its trace contains no
attribute write, so every attribute of every element survives — and element
selection reads only the `data-bs-toggle` attribute: two elements agreeing
on that attribute are selected alike, whatever their other attributes. -/
theorem handler_frame_condition (env : Env) :
    docAfter env = env.doc
    ∧ (∀ ev ∈ handlerTrace env, ∀ i n v, ev ≠ Event.setAttr i n v)
    ∧ (∀ e₁ e₂ : Element,
        e₁.getAttr "data-bs-toggle" = e₂.getAttr "data-bs-toggle" →
        e₁.matchesSel tooltipSelector = e₂.matchesSel tooltipSelector) := by
  refine ⟨applyTrace_eq_self _ _ (handlerTrace_no_setAttr env),
    handlerTrace_no_setAttr env, ?_⟩
  intro e₁ e₂ h
  simp only [tooltipSelector, Element.matchesSel, h]

/-- Witness for C7: the mixed document is untouched, the trace's first
event is no attribute write, and two concrete elements agreeing on the
marker attribute are selected alike. -/
theorem handler_frame_condition_witness :
    docAfter envRoot = envRoot.doc
    ∧ Event.readPath "/" ≠ Event.setAttr 0 "title" "x"
    ∧ elTip1.matchesSel tooltipSelector = elTip2.matchesSel tooltipSelector :=
  ⟨(handler_frame_condition envRoot).1,
   (handler_frame_condition envRoot).2.1 (Event.readPath "/") (by decide) 0 "title" "x",
   (handler_frame_condition envRoot).2.2 elTip1 elTip2 (by decide)⟩

/-- C8: the two behaviors share no data: the construction-call sequence is
a function of the document and the library flag alone (the path never
influences it), and the scheduled reloads are a function of the path alone
(the document never influences them). -/
theorem behaviors_independent (env₁ env₂ : Env) :
    (env₁.doc = env₂.doc → env₁.bootstrapDefined = env₂.bootstrapDefined →
      constructions env₁ = constructions env₂)
    ∧ (env₁.pathname = env₂.pathname →
      scheduledReloads env₁ = scheduledReloads env₂) := by
  constructor
  · intro hd hb
    rw [constructions_eq, constructions_eq, hd, hb]
  · intro hp
    rw [scheduledReloads_eq, scheduledReloads_eq, hp]

/-- Witness for C8: changing only the path leaves the construction calls
unchanged, and changing only the document leaves the schedule unchanged. -/
theorem behaviors_independent_witness :
    constructions envRoot = constructions envScan
    ∧ scheduledReloads envRoot = scheduledReloads envBare :=
  ⟨(behaviors_independent envRoot envScan).1 rfl rfl,
   (behaviors_independent envRoot envBare).2 rfl⟩

/-- Helper for C9: in a concatenation, a position holding an element that
cannot occur on the right precedes a position holding an element that
cannot occur on the left. -/
lemma get?_append_lt (l₁ l₂ : List Event) (i j : Nat) (a b : Event)
    (hi : (l₁ ++ l₂).get? i = some a) (hj : (l₁ ++ l₂).get? j = some b)
    (ha : a ∉ l₂) (hb : b ∉ l₁) : i < j := by
  rcases Nat.lt_or_ge i l₁.length with h1 | h1
  · rcases Nat.lt_or_ge j l₁.length with h2 | h2
    · exfalso
      apply hb
      rw [List.get?_eq_getElem?, List.getElem?_append_left h2] at hj
      exact List.getElem?_mem hj
    · omega
  · exfalso
    apply ha
    rw [List.get?_eq_getElem?, List.getElem?_append_right h1] at hi
    exact List.getElem?_mem hi

/-- C9: within the single-threaded handler trace, every timer-scheduling
step precedes every tooltip-construction step: the auto-refresh branch
completes before the first construction call. -/
theorem behaviors_sequential (env : Env) (i j : Nat) (k : TimerKind)
    (d : Nat) (t : TimerTask) (e : Element)
    (hi : (handlerTrace env).get? i = some (Event.schedule k d t))
    (hj : (handlerTrace env).get? j = some (Event.newTooltip e)) :
    i < j := by
  have hsplit : handlerTrace env =
      ((Event.readPath env.pathname ::
          (if env.pathname = "/" then
            [Event.schedule TimerKind.timeout 30000 TimerTask.reload]
          else []))
        ++ [Event.querySelect tooltipSelector])
      ++ tooltipMapTrace env.bootstrapDefined
          (env.doc.querySelectorAll tooltipSelector) := by
    rw [handlerTrace, List.append_assoc]
    rfl
  rw [hsplit] at hi hj
  apply get?_append_lt _ _ i j _ _ hi hj
  · intro hmem
    rcases mem_tooltipMapTrace hmem with ⟨e', he'⟩ | he' <;> simp at he'
  · intro hmem
    rw [List.mem_append] at hmem
    rcases hmem with hmem | hmem
    · rcases List.mem_cons.mp hmem with h | h
      · simp at h
      · by_cases hp : env.pathname = "/" <;> simp [hp] at h
    · simp at hmem

/-- Witness for C9: in the concrete root-path trace the schedule step sits
at position 1 and the first construction at position 3. -/
theorem behaviors_sequential_witness :
    (handlerTrace envRoot).get? 1
        = some (Event.schedule TimerKind.timeout 30000 TimerTask.reload)
    ∧ (handlerTrace envRoot).get? 3 = some (Event.newTooltip elTip1)
    ∧ 1 < 3 :=
  ⟨by decide, by decide,
   behaviors_sequential envRoot 1 3 TimerKind.timeout 30000 TimerTask.reload
     elTip1 (by decide) (by decide)⟩

/-- C10: selection is an exact attribute-value match: an element whose
`data-bs-toggle` attribute holds any value other than exactly `"tooltip"`
receives no construction call. -/
theorem tooltip_selector_exact_match (env : Env) (e : Element) (v : String)
    (hv : e.getAttr "data-bs-toggle" = some v) (hne : v ≠ "tooltip") :
    e ∉ constructions env := by
  rw [constructions_eq]
  have hm : e.matchesSel tooltipSelector = false := by
    simp only [tooltipSelector, Element.matchesSel, hv]
    simp [hne]
  split
  · intro hmem
    rw [Document.querySelectorAll] at hmem
    rw [(List.mem_filter.mp hmem).2] at hm
    exact Bool.noConfusion hm
  · exact List.not_mem_nil e

/-- Witness for C10: the element with `data-bs-toggle="modal"` is never
passed to a construction call. -/
theorem tooltip_selector_exact_match_witness :
    elModal ∉ constructions envRoot :=
  tooltip_selector_exact_match envRoot elModal "modal" (by decide) (by decide)

end NetScan
